import Mathlib

set_option maxRecDepth 4000

/-!
Verification of the cloud-accounting backend (double-entry bookkeeping REST
service). Shallow embedding of the data model and the route handlers:
journal-entry posting (journalEntry.routes POST handler), general ledger
(generalLedger.routes GET handler), trial balance and income statement
(report.routes handlers), account update (account.routes PUT handler), and
the error-classification middleware (app.js).

Monetary amounts are embedded as rationals (the JS code uses IEEE doubles via
parseFloat; the algorithmic content of the claims is about exact arithmetic).
Dates are embedded as integers with the order matching SQL date comparison.
Database tables are lists of rows; SQL joins, filters and ORDER BY clauses
are translated to list operations row by row from the knex queries.
-/


/-- A row of the global account_types reference table. -/
structure AccountType where
  id : ℕ
  name : String
  normalBalance : String
  deriving DecidableEq, Repr

/-- A row of the accounts table.  The opaque bank_account_details payload and
the free-text description column are not read by any modelled operation and
are omitted. -/
structure Account where
  id : ℕ
  organizationId : ℕ
  code : String
  name : String
  accountTypeId : ℕ
  accountCategoryId : Option ℕ
  parentAccountId : Option ℕ
  isActive : Bool
  updatedAt : ℕ
  deriving DecidableEq, Repr

/-- A row of the account_balances table: one row per
(account_id, organization_id) holding the current signed balance. -/
structure AccountBalance where
  accountId : ℕ
  organizationId : ℕ
  balance : ℚ
  deriving DecidableEq, Repr

/-- A row of the journal_entries table. -/
structure JournalEntry where
  id : ℕ
  organizationId : ℕ
  date : ℤ
  reference : String
  description : String
  status : String
  deriving DecidableEq, Repr

/-- A row of the journal_entry_lines table (tax columns omitted: written but
never read by any modelled operation). -/
structure JournalEntryLine where
  id : ℕ
  journalEntryId : ℕ
  accountId : ℕ
  description : String
  debitAmount : ℚ
  creditAmount : ℚ
  deriving DecidableEq, Repr

/-- A row of the account_categories table. -/
structure AccountCategory where
  id : ℕ
  organizationId : ℕ
  name : String
  accountTypeId : ℕ
  deriving DecidableEq, Repr

/-- The relational store: each field is one table, plus the id sequences for
the two tables the posting path inserts into. -/
structure DB where
  accountTypes : List AccountType
  accountCategories : List AccountCategory
  accounts : List Account
  balances : List AccountBalance
  entries : List JournalEntry
  lines : List JournalEntryLine
  nextEntryId : ℕ
  nextLineId : ℕ
  deriving DecidableEq, Repr

/-- One element of the lines array of a POST /journal-entries body, after the
Joi schema applied its defaults (debitAmount and creditAmount default to 0). -/
structure PostLine where
  accountId : ℕ
  description : String
  debitAmount : ℚ
  creditAmount : ℚ
  deriving DecidableEq, Repr

/-- A POST /journal-entries request body. -/
structure PostRequest where
  organizationId : ℕ
  date : ℤ
  reference : String
  description : String
  lines : List PostLine
  deriving DecidableEq, Repr

/-- totalDebit as computed by the handler:
lines.reduce((sum, line) => sum + (parseFloat(line.debitAmount) || 0), 0). -/
def totalDebitOf (req : PostRequest) : ℚ :=
  req.lines.foldl (fun s l => s + l.debitAmount) 0

/-- totalCredit as computed by the handler. -/
def totalCreditOf (req : PostRequest) : ℚ :=
  req.lines.foldl (fun s l => s + l.creditAmount) 0

/-- The accounts-join-account_types lookup used inside the posting loop:
trx("accounts").join("account_types", ...).where("accounts.id", line.accountId)
.first() — note: no organization filter. -/
def lookupAccountWithType (db : DB) (accId : ℕ) : Option (Account × AccountType) :=
  match db.accounts.find? (fun a => a.id = accId) with
  | none => none
  | some a => (db.accountTypes.find? (fun t => t.id = a.accountTypeId)).map (fun t => (a, t))

/-- balanceChange computed from the account type:
debit-normal accounts gain debit - credit, others credit - debit. -/
def balanceChangeFor (normalBalance : String) (l : PostLine) : ℚ :=
  if normalBalance = "debit" then l.debitAmount - l.creditAmount
  else l.creditAmount - l.debitAmount

/-- The account_balances increment:
trx("account_balances").where({account_id, organization_id}).increment(...).
Updates every matching row; if no row matches it silently changes nothing. -/
def incrementBalance (bals : List AccountBalance) (accId orgId : ℕ) (delta : ℚ) :
    List AccountBalance :=
  bals.map (fun b =>
    if b.accountId = accId ∧ b.organizationId = orgId
    then { b with balance := b.balance + delta } else b)

/-- The per-line loop of the posting handler, acting on the balances table.
A missing account (or a dangling account_type_id, which makes the inner join
return no row) raises the thrown error message and aborts. -/
def applyBalanceUpdates (db : DB) (orgId : ℕ) :
    List PostLine → List AccountBalance → Except String (List AccountBalance)
  | [], bals => .ok bals
  | l :: ls, bals =>
    match lookupAccountWithType db l.accountId with
    | none => .error ("Account with ID " ++ toString l.accountId ++ " not found")
    | some (_, t) =>
      applyBalanceUpdates db orgId ls
        (incrementBalance bals l.accountId orgId (balanceChangeFor t.normalBalance l))

/-- The journal_entries row inserted by the handler (status is always
"posted"). -/
def newEntryOf (db : DB) (req : PostRequest) : JournalEntry :=
  { id := db.nextEntryId
    organizationId := req.organizationId
    date := req.date
    reference := req.reference
    description := req.description
    status := "posted" }

/-- The journal_entry_lines rows inserted by the handler. -/
def newLinesOf (db : DB) (req : PostRequest) : List JournalEntryLine :=
  (List.range req.lines.length).zip req.lines |>.map (fun p =>
    { id := db.nextLineId + p.1
      journalEntryId := db.nextEntryId
      accountId := p.2.accountId
      description := p.2.description
      debitAmount := p.2.debitAmount
      creditAmount := p.2.creditAmount })

/-- The committed state after a successful posting transaction. -/
def commitDB (db : DB) (req : PostRequest) (newBals : List AccountBalance) : DB :=
  { db with
    entries := db.entries ++ [newEntryOf db req]
    lines := db.lines ++ newLinesOf db req
    balances := newBals
    nextEntryId := db.nextEntryId + 1
    nextLineId := db.nextLineId + req.lines.length }

/-- Outcome of the posting handler before HTTP shaping: the early unbalanced
rejection, a thrown error (propagated to the error middleware after the
transaction rolled back), or the committed entry with its totals. -/
inductive PostResult where
  | unbalanced (totalDebit totalCredit difference : ℚ)
  | thrown (message : String)
  | success (entryId : ℕ) (totalDebit totalCredit : ℚ)
  deriving DecidableEq, Repr

/-- The POST /journal-entries handler (journalEntry.routes lines 359-499):
balance check before any write, then one transaction inserting the entry row,
the line rows, and running the per-line balance increments; any throw inside
the transaction rolls everything back (the returned state is the input state). -/
def postJournalEntry (db : DB) (req : PostRequest) : PostResult × DB :=
  let totalDebit := totalDebitOf req
  let totalCredit := totalCreditOf req
  if |totalDebit - totalCredit| > 1/1000 then
    (.unbalanced totalDebit totalCredit (totalDebit - totalCredit), db)
  else
    match applyBalanceUpdates db req.organizationId req.lines db.balances with
    | .error msg => (.thrown msg, db)
    | .ok newBals =>
      (.success db.nextEntryId totalDebit totalCredit, commitDB db req newBals)

/-- A JS Error object as seen by the express error middleware. -/
structure JsError where
  name : String
  code : Option String
  message : String
  deriving DecidableEq, Repr

/-- err.message.includes(sub). -/
def strIncludes (s sub : String) : Bool :=
  (s.splitOn sub).length > 1

/-- An error payload of the response envelope, with the HTTP status.  The
details slot carries (totalDebit, totalCredit, difference) when present
(only the UNBALANCED_ENTRY response fills it). -/
structure ApiError where
  status : ℕ
  code : String
  message : String
  details : Option (ℚ × ℚ × ℚ)
  deriving DecidableEq, Repr

/-- The error-handling middleware of app.js (lines 127-168): connection-style
faults become 503 DATABASE_ERROR, Joi failures 400 VALIDATION_ERROR, and every
other uncaught error collapses to 500 SERVER_ERROR with the internal message
withheld. -/
def classifyError (e : JsError) : ApiError :=
  if e.code = some "ECONNREFUSED" ∨ strIncludes e.message "timeout" = true ∨
      strIncludes e.message "pool" = true ∨ strIncludes e.message "connection" = true then
    { status := 503, code := "DATABASE_ERROR"
      message := "Database service is currently unavailable. Please try again later."
      details := none }
  else if e.name = "ValidationError" then
    { status := 400, code := "VALIDATION_ERROR", message := "Invalid input data"
      details := none }
  else
    { status := 500, code := "SERVER_ERROR", message := "An unexpected error occurred"
      details := none }

/-- The HTTP response of POST /journal-entries. -/
inductive PostResponse where
  | err (e : ApiError)
  | created (entryId : ℕ) (totalDebit totalCredit : ℚ)
  deriving DecidableEq, Repr

/-- The posting route end to end: handler outcome shaped into the HTTP
response, thrown errors passing through the app.js middleware. -/
def postJournalEntryRoute (db : DB) (req : PostRequest) : PostResponse × DB :=
  match postJournalEntry db req with
  | (.unbalanced d c diff, db1) =>
    (.err { status := 400, code := "UNBALANCED_ENTRY"
            message := "Journal entry must be balanced (total debits must equal total credits)"
            details := some (d, c, diff) }, db1)
  | (.thrown msg, db1) =>
    (.err (classifyError { name := "Error", code := none, message := msg }), db1)
  | (.success i d c, db1) => (.created i d c, db1)

/-- Whether a response is the UNBALANCED_ENTRY rejection. -/
def isUnbalancedErr : PostResponse → Bool
  | .err e => e.code = "UNBALANCED_ENTRY"
  | .created _ _ _ => false

/-- Whether a response is a successful creation. -/
def isCreated : PostResponse → Bool
  | .err _ => false
  | .created _ _ _ => true

/-- Concrete store for the C1 witness: two seeded accounts of one
organization. -/
def dbC1 : DB :=
  { accountTypes := [⟨1, "Asset", "debit"⟩, ⟨4, "Revenue", "credit"⟩]
    accountCategories := []
    accounts := [⟨1, 1, "1000", "Cash", 1, none, none, true, 0⟩,
                 ⟨2, 1, "4000", "Sales", 4, none, none, true, 0⟩]
    balances := [⟨1, 1, 0⟩, ⟨2, 1, 0⟩]
    entries := []
    lines := []
    nextEntryId := 1
    nextLineId := 1 }

/-- An unbalanced posting request: debit 100 against credit 90. -/
def reqC1unbal : PostRequest :=
  { organizationId := 1, date := 15, reference := "INV-1", description := ""
    lines := [⟨1, "", 100, 0⟩, ⟨2, "", 0, 90⟩] }

/-- A balanced posting request: debit 100 against credit 100. -/
def reqC1bal : PostRequest :=
  { organizationId := 1, date := 15, reference := "INV-1", description := ""
    lines := [⟨1, "", 100, 0⟩, ⟨2, "", 0, 100⟩] }

/-- Store for the C2 failing input: only account 1 exists. -/
def dbC2 : DB :=
  { accountTypes := [⟨1, "Asset", "debit"⟩]
    accountCategories := []
    accounts := [⟨1, 1, "1000", "Cash", 1, none, none, true, 0⟩]
    balances := [⟨1, 1, 0⟩]
    entries := []
    lines := []
    nextEntryId := 1
    nextLineId := 1 }

/-- Balanced request whose second line references the nonexistent account
999. -/
def reqC2 : PostRequest :=
  { organizationId := 1, date := 15, reference := "INV-2", description := ""
    lines := [⟨1, "", 100, 0⟩, ⟨999, "", 0, 100⟩] }

/-- Store for the C4 failing input: accounts 1 and 2 exist, but only account
1 has an account_balances row. -/
def dbC4 : DB :=
  { accountTypes := [⟨1, "Asset", "debit"⟩, ⟨4, "Revenue", "credit"⟩]
    accountCategories := []
    accounts := [⟨1, 1, "1000", "Cash", 1, none, none, true, 0⟩,
                 ⟨2, 1, "4000", "Sales", 4, none, none, true, 0⟩]
    balances := [⟨1, 1, 0⟩]
    entries := []
    lines := []
    nextEntryId := 1
    nextLineId := 1 }

/-- Balanced request debiting account 1 and crediting account 2 (which has
no balance row). -/
def reqC4 : PostRequest :=
  { organizationId := 1, date := 15, reference := "INV-3", description := ""
    lines := [⟨1, "", 100, 0⟩, ⟨2, "", 0, 100⟩] }

/-- The delta a single posted line contributes to its account, per the
normal-balance convention of the spec (debit-normal: debit - credit,
otherwise credit - debit); 0 if the account does not resolve. -/
def specLineDelta (db : DB) (l : PostLine) : ℚ :=
  match lookupAccountWithType db l.accountId with
  | some (_, t) =>
    if t.normalBalance = "debit" then l.debitAmount - l.creditAmount
    else l.creditAmount - l.debitAmount
  | none => 0

/-- Total normal-balance-signed delta a list of lines contributes to one
account. -/
def sumDeltas (db : DB) (ls : List PostLine) (accId : ℕ) : ℚ :=
  ((ls.filter (fun l => l.accountId = accId)).map (specLineDelta db)).sum

/-- Spec-side description of one balance row after a successful posting:
rows keyed by the posting organization gain the summed deltas of the lines
referencing their account; every other row is untouched. -/
def specBalanceAfter (db : DB) (req : PostRequest) (b : AccountBalance) : AccountBalance :=
  if b.organizationId = req.organizationId then
    { b with balance := b.balance + sumDeltas db req.lines b.accountId }
  else b

/-- Store for the C3 witness. -/
def dbC3 : DB :=
  { accountTypes := [⟨1, "Asset", "debit"⟩, ⟨4, "Revenue", "credit"⟩]
    accountCategories := []
    accounts := [⟨1, 1, "1000", "Cash", 1, none, none, true, 0⟩,
                 ⟨2, 1, "4000", "Sales", 4, none, none, true, 0⟩]
    balances := [⟨1, 1, 25⟩, ⟨2, 1, 40⟩, ⟨9, 3, 7⟩]
    entries := []
    lines := []
    nextEntryId := 1
    nextLineId := 1 }

/-- Balanced posting for the C3 witness: debit Cash 100, credit Sales 100. -/
def reqC3 : PostRequest :=
  { organizationId := 1, date := 15, reference := "INV-4", description := ""
    lines := [⟨1, "", 100, 0⟩, ⟨2, "", 0, 100⟩] }

/-- Store for the C10 witness: account 1 belongs to organization 1, account
3 to organization 2; account 3 has its balance row keyed by organization 2. -/
def dbC10 : DB :=
  { accountTypes := [⟨1, "Asset", "debit"⟩]
    accountCategories := []
    accounts := [⟨1, 1, "1000", "Cash", 1, none, none, true, 0⟩,
                 ⟨3, 2, "1000", "Other Org Cash", 1, none, none, true, 0⟩]
    balances := [⟨1, 1, 0⟩, ⟨3, 2, 7⟩]
    entries := []
    lines := []
    nextEntryId := 1
    nextLineId := 1 }

/-- Posting by organization 1 whose second line references account 3 of
organization 2. -/
def reqC10 : PostRequest :=
  { organizationId := 1, date := 15, reference := "INV-5", description := ""
    lines := [⟨1, "", 100, 0⟩, ⟨3, "", 0, 100⟩] }

/-- A row of the ledger join: journal_entry_lines joined to journal_entries
for one account, restricted to status "posted" entries of the organization
(generalLedger.routes lines 44-52). -/
structure LJRow where
  entryId : ℕ
  date : ℤ
  reference : String
  debitAmount : ℚ
  creditAmount : ℚ
  deriving DecidableEq, Repr

/-- The joined posted lines of one account within one organization, with no
date filter and no ordering (the base of both the display query and the
fresh balance-seed query). -/
def postedLinesOf (db : DB) (accId orgId : ℕ) : List LJRow :=
  db.lines.filterMap (fun l =>
    if l.accountId = accId then
      match db.entries.find? (fun e => e.id = l.journalEntryId) with
      | some e =>
        if e.organizationId = orgId ∧ e.status = "posted" then
          some { entryId := e.id, date := e.date, reference := e.reference
                 debitAmount := l.debitAmount, creditAmount := l.creditAmount }
        else none
      | none => none
    else none)

/-- ORDER BY journal_entries.date desc, journal_entries.id desc: r sorts
at or before x in descending order. -/
def ledgerLeDesc (r x : LJRow) : Bool :=
  decide (x.date < r.date) || (decide (r.date = x.date) && decide (x.entryId ≤ r.entryId))

/-- Insertion step of the descending sort. -/
def insertDesc (r : LJRow) : List LJRow → List LJRow
  | [] => [r]
  | x :: xs => if ledgerLeDesc r x then r :: x :: xs else x :: insertDesc r xs

/-- Stable sort realising ORDER BY (date desc, id desc). -/
def sortDesc : List LJRow → List LJRow
  | [] => []
  | r :: rs => insertDesc r (sortDesc rs)

/-- The optional date >= startDate and date <= endDate filters of the display
and count queries. -/
def applyDateFilters (startDate endDate : Option ℤ) (rows : List LJRow) : List LJRow :=
  let rows1 := match startDate with
    | some sd => rows.filter (fun r => sd ≤ r.date)
    | none => rows
  match endDate with
  | some ed => rows1.filter (fun r => r.date ≤ ed)
  | none => rows1

/-- The per-row balance contribution of a ledger row under the account's
normal balance (generalLedger.routes lines 126-132 and 136-144). -/
def ledgerDelta (normalBalance : String) (r : LJRow) : ℚ :=
  if normalBalance = "debit" then r.debitAmount - r.creditAmount
  else r.creditAmount - r.debitAmount

/-- A returned ledger transaction, carrying the running balance assigned to
it. -/
structure LedgerTxn where
  journalEntryId : ℕ
  date : ℤ
  reference : String
  debitAmount : ℚ
  creditAmount : ℚ
  balance : ℚ
  deriving DecidableEq, Repr

/-- The data payload of a successful ledger response. -/
structure LedgerData where
  accountId : ℕ
  accountCode : String
  accountName : String
  normalBalance : String
  transactions : List LedgerTxn
  total : ℕ
  page : ℕ
  limit : ℕ
  pages : ℕ
  deriving DecidableEq, Repr

/-- Math.ceil(count / limit) on naturals (limit positive in every use). -/
def natCeilDiv (a b : ℕ) : ℕ := (a + b - 1) / b

/-- The account-with-type lookup of the ledger route — unlike the posting
loop this one does filter by organization. -/
def ledgerAccountLookup (db : DB) (accountId orgId : ℕ) : Option (Account × AccountType) :=
  match db.accounts.find? (fun a => a.id = accountId ∧ a.organizationId = orgId) with
  | none => none
  | some a => (db.accountTypes.find? (fun t => t.id = a.accountTypeId)).map (fun t => (a, t))

/-- The GET /general-ledger/accounts/:accountId/organization/:organizationId
handler (generalLedger.routes lines 11-165): resolve the account, select the
posted lines in (date desc, id desc) order with optional date bounds and
limit/offset pagination, seed the running balance when page > 1 or startDate
is present (startDate branch: all posted rows strictly before startDate;
page branch: the descending list offset by (page-1)*limit with no limit and
no date filter), then walk the page rows in query (descending) order
accumulating the balance, and reverse the page into chronological order. -/
def getLedger (db : DB) (accountId orgId : ℕ) (startDate endDate : Option ℤ)
    (page limit : ℕ) : Except ApiError LedgerData :=
  match ledgerAccountLookup db accountId orgId with
  | none =>
    .error { status := 404, code := "ACCOUNT_NOT_FOUND", message := "Account not found"
             details := none }
  | some (a, t) =>
    let base := postedLinesOf db accountId orgId
    let filtered := applyDateFilters startDate endDate base
    let sorted := sortDesc filtered
    let count := filtered.length
    let pageRows := (sorted.drop ((page - 1) * limit)).take limit
    let seed : ℚ :=
      if page > 1 ∨ startDate.isSome then
        match startDate with
        | some sd =>
          ((base.filter (fun r => r.date < sd)).map (ledgerDelta t.normalBalance)).sum
        | none =>
          (((sortDesc base).drop ((page - 1) * limit)).map (ledgerDelta t.normalBalance)).sum
      else 0
    let walk := pageRows.foldl
      (fun (st : ℚ × List LedgerTxn) (r : LJRow) =>
        let nb := st.1 + ledgerDelta t.normalBalance r
        (nb, st.2 ++ [{ journalEntryId := r.entryId, date := r.date, reference := r.reference
                        debitAmount := r.debitAmount, creditAmount := r.creditAmount
                        balance := nb }]))
      (seed, [])
    .ok { accountId := a.id, accountCode := a.code, accountName := a.name
          normalBalance := t.normalBalance
          transactions := walk.2.reverse
          total := count, page := page, limit := limit, pages := natCeilDiv count limit }

/-- The balance column of the returned transactions, in returned order. -/
def ledgerBalances : Except ApiError LedgerData → List ℚ
  | .ok d => d.transactions.map (fun x => x.balance)
  | .error _ => []

/-- The journal-entry ids of the returned transactions, in returned order. -/
def ledgerEntryIds : Except ApiError LedgerData → List ℕ
  | .ok d => d.transactions.map (fun x => x.journalEntryId)
  | .error _ => []

/-- Store for the C6 failing input: debit-normal account 1 with two posted
single-line entries, entry 1 on day 1 debiting 100 and entry 2 on day 2
debiting 50. -/
def dbC6 : DB :=
  { accountTypes := [⟨1, "Asset", "debit"⟩]
    accountCategories := []
    accounts := [⟨1, 1, "1000", "Cash", 1, none, none, true, 0⟩]
    balances := [⟨1, 1, 150⟩]
    entries := [⟨1, 1, 1, "R1", "", "posted"⟩, ⟨2, 1, 2, "R2", "", "posted"⟩]
    lines := [⟨1, 1, 1, "", 100, 0⟩, ⟨2, 2, 1, "", 50, 0⟩]
    nextEntryId := 3
    nextLineId := 3 }

/-- Store for the C5 failing input: debit-normal account 1 with four posted
single-line entries, entry i on day i debiting i (i = 1..4). -/
def dbC5 : DB :=
  { accountTypes := [⟨1, "Asset", "debit"⟩]
    accountCategories := []
    accounts := [⟨1, 1, "1000", "Cash", 1, none, none, true, 0⟩]
    balances := [⟨1, 1, 10⟩]
    entries := [⟨1, 1, 1, "R1", "", "posted"⟩, ⟨2, 1, 2, "R2", "", "posted"⟩,
                ⟨3, 1, 3, "R3", "", "posted"⟩, ⟨4, 1, 4, "R4", "", "posted"⟩]
    lines := [⟨1, 1, 1, "", 1, 0⟩, ⟨2, 2, 1, "", 2, 0⟩,
              ⟨3, 3, 1, "", 3, 0⟩, ⟨4, 4, 1, "", 4, 0⟩]
    nextEntryId := 5
    nextLineId := 5 }


/-- A trial-balance account row: the classified debit/credit columns next to
the raw balance. -/
structure TBRow where
  accountId : ℕ
  code : String
  name : String
  normalBalance : String
  balance : ℚ
  debitBalance : ℚ
  creditBalance : ℚ
  deriving DecidableEq, Repr

/-- The accumulator of the trial-balance forEach: rows emitted so far and
the two running grand totals. -/
structure TBAcc where
  rows : List TBRow
  totalDebits : ℚ
  totalCredits : ℚ
  deriving DecidableEq, Repr

/-- The account query of the trial-balance handler (report.routes lines
518-547): accounts of the organization inner-joined to account_types and
left-joined to account_balances ON (account_id = accounts.id AND
organization_id = accounts.organization_id); a missing balance row reads as
0 (account.balance || 0).  The category left-join and the ORDER BY feed only
the grouping/presentation layer and are omitted. -/
def trialBalanceJoined (db : DB) (orgId : ℕ) : List (Account × AccountType × ℚ) :=
  (db.accounts.filter (fun a => a.organizationId = orgId)).filterMap (fun a =>
    (db.accountTypes.find? (fun t => t.id = a.accountTypeId)).map (fun t =>
      (a, t,
        ((db.balances.find? (fun b => b.accountId = a.id ∧ b.organizationId = a.organizationId)).map
          (fun b => b.balance)).getD 0)))

/-- One iteration of the classification forEach (report.routes lines
554-578): a balance on the normal side fills that column and total, a
balance opposite to the normal side fills the other column and total as an
absolute value. -/
def trialBalanceStep (st : TBAcc) (j : Account × AccountType × ℚ) : TBAcc :=
  let a := j.1
  let t := j.2.1
  let bal := j.2.2
  if t.normalBalance = "debit" then
    if bal ≥ 0 then
      { rows := st.rows ++ [⟨a.id, a.code, a.name, t.normalBalance, bal, bal, 0⟩]
        totalDebits := st.totalDebits + bal, totalCredits := st.totalCredits }
    else
      { rows := st.rows ++ [⟨a.id, a.code, a.name, t.normalBalance, bal, 0, |bal|⟩]
        totalDebits := st.totalDebits, totalCredits := st.totalCredits + |bal| }
  else
    if bal ≥ 0 then
      { rows := st.rows ++ [⟨a.id, a.code, a.name, t.normalBalance, bal, 0, bal⟩]
        totalDebits := st.totalDebits, totalCredits := st.totalCredits + bal }
    else
      { rows := st.rows ++ [⟨a.id, a.code, a.name, t.normalBalance, bal, |bal|, 0⟩]
        totalDebits := st.totalDebits + |bal|, totalCredits := st.totalCredits }

/-- The data payload of the trial-balance response (rows flattened out of
the type/category grouping, which only restructures them). -/
structure TrialBalanceResult where
  rows : List TBRow
  totalDebits : ℚ
  totalCredits : ℚ
  difference : ℚ
  deriving DecidableEq, Repr

/-- GET /reports/trial-balance/: classify every account and report the grand
totals with their absolute difference (report.routes lines 512-642; asOfDate
is accepted but deliberately unapplied in the source). -/
def trialBalance (db : DB) (orgId : ℕ) : TrialBalanceResult :=
  let final := (trialBalanceJoined db orgId).foldl trialBalanceStep ⟨[], 0, 0⟩
  { rows := final.rows, totalDebits := final.totalDebits, totalCredits := final.totalCredits
    difference := |final.totalDebits - final.totalCredits| }

/-- Spec-side debit column of one account per the claim: a debit-normal
nonnegative balance verbatim, or the absolute value of a credit-normal
negative balance. -/
def specDebitColumn (normalBalance : String) (bal : ℚ) : ℚ :=
  if normalBalance = "debit" then (if bal ≥ 0 then bal else 0)
  else (if bal ≥ 0 then 0 else |bal|)

/-- Spec-side credit column of one account per the claim. -/
def specCreditColumn (normalBalance : String) (bal : ℚ) : ℚ :=
  if normalBalance = "debit" then (if bal ≥ 0 then 0 else |bal|)
  else (if bal ≥ 0 then bal else 0)

/-- Spec-side trial-balance row of one joined account. -/
def specTBRowOf (j : Account × AccountType × ℚ) : TBRow :=
  ⟨j.1.id, j.1.code, j.1.name, j.2.1.normalBalance, j.2.2,
   specDebitColumn j.2.1.normalBalance j.2.2, specCreditColumn j.2.1.normalBalance j.2.2⟩


/-- The name of an account's type, when the inner join to account_types
finds one. -/
def accountTypeNameOf (db : DB) (a : Account) : Option String :=
  (db.accountTypes.find? (fun t => t.id = a.accountTypeId)).map (fun t => t.name)

/-- The revenue/expense account query of the income-statement handler
(report.routes lines 662-689): accounts of the organization whose joined
type name matches. -/
def accountsOfType (db : DB) (orgId : ℕ) (typeName : String) : List Account :=
  db.accounts.filter (fun a =>
    a.organizationId = orgId ∧ accountTypeNameOf db a = some typeName)

/-- A transaction row of the income-statement period queries. -/
structure PeriodLine where
  accountId : ℕ
  debitAmount : ℚ
  creditAmount : ℚ
  deriving DecidableEq, Repr

/-- Posted lines of the organization whose entry date lies in
[startDate, endDate] inclusive (whereBetween), before the whereIn account
filter. -/
def orgPostedRowsBetween (db : DB) (orgId : ℕ) (sd ed : ℤ) : List PeriodLine :=
  db.lines.filterMap (fun l =>
    match db.entries.find? (fun e => e.id = l.journalEntryId) with
    | some e =>
      if e.organizationId = orgId ∧ e.status = "posted" ∧ sd ≤ e.date ∧ e.date ≤ ed then
        some ⟨l.accountId, l.debitAmount, l.creditAmount⟩
      else none
    | none => none)

/-- The whereIn(journal_entry_lines.account_id, ids) restriction of the two
period queries. -/
def periodTxnsFor (db : DB) (orgId : ℕ) (sd ed : ℤ) (ids : List ℕ) : List PeriodLine :=
  (orgPostedRowsBetween db orgId sd ed).filter (fun r => r.accountId ∈ ids)

/-- One step of the byAccount dictionary accumulation:
if (!m[k]) m[k] = 0; m[k] += v. -/
def bumpAssoc : List (ℕ × ℚ) → ℕ → ℚ → List (ℕ × ℚ)
  | [], k, v => [(k, v)]
  | (k2, x) :: rest, k, v =>
    if k2 = k then (k2, x + v) :: rest else (k2, x) :: bumpAssoc rest k v

/-- The revenueByAccount / expensesByAccount dictionary built by the forEach
over the period transactions. -/
def buildTotalsDict (txns : List PeriodLine) (deltaFn : PeriodLine → ℚ) : List (ℕ × ℚ) :=
  txns.foldl (fun m t => bumpAssoc m t.accountId (deltaFn t)) []

/-- Revenue accounts have credit normal balance: credit - debit. -/
def revenueDeltaFn (r : PeriodLine) : ℚ := r.creditAmount - r.debitAmount

/-- Expense accounts have debit normal balance: debit - credit. -/
def expenseDeltaFn (r : PeriodLine) : ℚ := r.debitAmount - r.creditAmount

/-- One aggregation block of the income-statement handler (report.routes
lines 691-727 for revenue, 729-765 for expenses, which differ only in the
type name and delta orientation): select the accounts, query their period
transactions, fold them into the byAccount dictionary, attach each account
its dictionary balance (0 when absent), and accumulate the block total.
The category regrouping (lines 767-801) only restructures the account list
and is omitted. -/
def periodAggregate (db : DB) (orgId : ℕ) (sd ed : ℤ) (typeName : String)
    (deltaFn : PeriodLine → ℚ) : List (Account × ℚ) × ℚ :=
  let accounts := accountsOfType db orgId typeName
  let ids := accounts.map (fun a => a.id)
  let txns := periodTxnsFor db orgId sd ed ids
  let dict := buildTotalsDict txns deltaFn
  let withBal := accounts.map (fun a => (a, (dict.lookup a.id).getD 0))
  let total := withBal.foldl (fun s p => s + p.2) 0
  (withBal, total)

/-- The data payload of a successful income-statement response. -/
structure IncomeStatementResult where
  revenueAccounts : List (Account × ℚ)
  totalRevenue : ℚ
  expenseAccounts : List (Account × ℚ)
  totalExpenses : ℚ
  netIncome : ℚ
  deriving DecidableEq, Repr

/-- GET /reports/income-statement/ (report.routes lines 645-827): both date
bounds are required, revenue and expense blocks aggregate per account over
the inclusive period, and netIncome = totalRevenue - totalExpenses. -/
def incomeStatement (db : DB) (orgId : ℕ) (startDate endDate : Option ℤ) :
    Except ApiError IncomeStatementResult :=
  match startDate, endDate with
  | some sd, some ed =>
    let rev := periodAggregate db orgId sd ed "Revenue" revenueDeltaFn
    let ex := periodAggregate db orgId sd ed "Expense" expenseDeltaFn
    .ok { revenueAccounts := rev.1, totalRevenue := rev.2
          expenseAccounts := ex.1, totalExpenses := ex.2
          netIncome := rev.2 - ex.2 }
  | _, _ =>
    .error { status := 400, code := "MISSING_DATE_PARAMETERS"
             message := "Both startDate and endDate are required", details := none }

/-- Spec-side period total of one account: the sum of the deltas of its
posted lines with entry date in the inclusive window. -/
def specPeriodDelta (db : DB) (orgId : ℕ) (sd ed : ℤ) (deltaFn : PeriodLine → ℚ)
    (a : Account) : ℚ :=
  (((orgPostedRowsBetween db orgId sd ed).filter (fun r => r.accountId = a.id)).map deltaFn).sum


/-- A JS runtime value as seen by the strict-equality operator.  In the PUT
account handler the route param accountId is always a string, while the Joi
schema types parentAccountId as a number (or null). -/
inductive JVal where
  | num (n : ℚ)
  | str (s : String)
  | null
  deriving DecidableEq, Repr

/-- JS strict equality: operands of different runtime types are never
equal. -/
def strictEq (a b : JVal) : Bool := a == b

/-- The validated parentAccountId body field as the JS value the handler
compares. -/
def jvalOfParent : Option ℕ → JVal
  | none => .null
  | some n => .num n

/-- A PUT /accounts body after Joi validation.  An outer none is an absent
(undefined) field; parentAccountId distinguishes absent (none), null
(some none) and a number (some (some n)).  The description and bank-detail
fields only flow into the stored payload and are omitted. -/
structure UpdateBody where
  code : Option String
  name : Option String
  accountTypeId : Option ℕ
  accountCategoryId : Option ℕ
  parentAccountId : Option (Option ℕ)
  isActive : Option Bool
  deriving DecidableEq, Repr

/-- Outcome of the update route: one of the 4xx error codes or the updated
account as re-queried (.first() may in principle be empty, hence Option). -/
inductive UpdateResult where
  | notFound
  | duplicateCode
  | invalidType
  | invalidCategory
  | invalidParent
  | updated (account : Option Account)
  deriving DecidableEq, Repr

/-- updateData construction and partial merge: only supplied fields change
(field !== undefined), updated_at always refreshes. -/
def mergeAccountUpdate (a : Account) (body : UpdateBody) (now : ℕ) : Account :=
  { a with
    code := body.code.getD a.code
    name := body.name.getD a.name
    accountTypeId := body.accountTypeId.getD a.accountTypeId
    accountCategoryId :=
      match body.accountCategoryId with
      | some c => some c
      | none => a.accountCategoryId
    parentAccountId :=
      match body.parentAccountId with
      | some p => p
      | none => a.parentAccountId
    isActive := body.isActive.getD a.isActive
    updatedAt := now }

/-- The write of the update route: db("accounts").where({ id: accountId })
.update(updateData) — filtered by id only — followed by the re-query of the
updated row. -/
def applyAccountUpdate (db : DB) (accountId : ℕ) (body : UpdateBody) (now : ℕ) :
    UpdateResult × DB :=
  let newAccounts := db.accounts.map (fun a =>
    if a.id = accountId then mergeAccountUpdate a body now else a)
  (.updated (newAccounts.find? (fun a => a.id = accountId)),
   { db with accounts := newAccounts })

/-- The PUT /accounts/:accountId/organization/:organizationId handler
(account.routes lines 313-431 and the following write): existence check,
duplicate-code check (skipped for an empty or unchanged code), type and
category checks (skipped for falsy 0), then the parent checks — the
self-parent comparison is the raw strict equality
parentAccountId === accountId between the numeric body field and the string
route param — and finally the partial merge.  Route-param ids coerce to
numbers inside every SQL where clause. -/
def updateAccount (db : DB) (accountIdParam : String) (orgId : ℕ) (body : UpdateBody)
    (now : ℕ) : UpdateResult × DB :=
  let accountId := accountIdParam.toNat?.getD 0
  match db.accounts.find? (fun a => a.id = accountId ∧ a.organizationId = orgId) with
  | none => (.notFound, db)
  | some existing =>
    let dupErr :=
      match body.code with
      | some c =>
        if c ≠ "" ∧ c ≠ existing.code then
          (db.accounts.find? (fun (a : Account) =>
            a.organizationId = orgId ∧ a.code = c ∧ a.id ≠ accountId)).isSome
        else false
      | none => false
    if dupErr then (.duplicateCode, db)
    else
      let typeErr :=
        match body.accountTypeId with
        | some t => if t ≠ 0 then (db.accountTypes.find? (fun (x : AccountType) => x.id = t)).isNone else false
        | none => false
      if typeErr then (.invalidType, db)
      else
        let catErr :=
          match body.accountCategoryId with
          | some c =>
            if c ≠ 0 then
              (db.accountCategories.find? (fun (x : AccountCategory) =>
                x.id = c ∧ x.organizationId = orgId)).isNone
            else false
          | none => false
        if catErr then (.invalidCategory, db)
        else
          match body.parentAccountId with
          | some p =>
            if strictEq (jvalOfParent p) (.str accountIdParam) then (.invalidParent, db)
            else
              let parentMissing :=
                match p with
                | some pid =>
                  (db.accounts.find? (fun (a : Account) =>
                    a.id = pid ∧ a.organizationId = orgId)).isNone
                | none => false
              if parentMissing then (.invalidParent, db)
              else applyAccountUpdate db accountId body now
          | none => applyAccountUpdate db accountId body now

/-- Store for the C9 failing input: one account, id 7, organization 1. -/
def dbC9 : DB :=
  { accountTypes := [⟨1, "Asset", "debit"⟩]
    accountCategories := []
    accounts := [⟨7, 1, "1000", "Cash", 1, none, none, true, 0⟩]
    balances := [⟨7, 1, 0⟩]
    entries := []
    lines := []
    nextEntryId := 1
    nextLineId := 1 }

/-- Update body setting parentAccountId to the id of the account itself, as
a JSON number (the type the Joi schema validates). -/
def bodyC9 : UpdateBody :=
  { code := none, name := none, accountTypeId := none, accountCategoryId := none
    parentAccountId := some (some 7), isActive := none }


/-- C1: a postJournalEntry request whose line totals differ by more than
0.001 is rejected with error code UNBALANCED_ENTRY whose details carry
totalDebit, totalCredit and their difference, and the store is unchanged
(the check runs before any write); conversely a request within the
tolerance is never rejected by this check. -/
theorem spec_C1 (db : DB) (req : PostRequest) :
    (|totalDebitOf req - totalCreditOf req| > 1/1000 →
      postJournalEntryRoute db req =
        (.err { status := 400, code := "UNBALANCED_ENTRY"
                message := "Journal entry must be balanced (total debits must equal total credits)"
                details := some (totalDebitOf req, totalCreditOf req,
                  totalDebitOf req - totalCreditOf req) }, db))
    ∧ (|totalDebitOf req - totalCreditOf req| ≤ 1/1000 →
      isUnbalancedErr (postJournalEntryRoute db req).1 = false) := by
  constructor
  · intro h
    unfold postJournalEntryRoute postJournalEntry
    rw [if_pos h]
  · intro h
    have hn : ¬ (|totalDebitOf req - totalCreditOf req| > 1/1000) := not_lt.mpr h
    unfold postJournalEntryRoute postJournalEntry
    rw [if_neg hn]
    cases happ : applyBalanceUpdates db req.organizationId req.lines db.balances with
    | error msg =>
      simp only [isUnbalancedErr, classifyError]
      split
      · rfl
      · split <;> simp
    | ok newBals => rfl

/-- Witness for C1 at concrete inputs: debit 100 / credit 90 is rejected as
UNBALANCED_ENTRY with the store untouched, and debit 100 / credit 100 passes
the balance check. -/
theorem spec_C1_witness :
    postJournalEntryRoute dbC1 reqC1unbal =
      (.err { status := 400, code := "UNBALANCED_ENTRY"
              message := "Journal entry must be balanced (total debits must equal total credits)"
              details := some (totalDebitOf reqC1unbal, totalCreditOf reqC1unbal,
                totalDebitOf reqC1unbal - totalCreditOf reqC1unbal) }, dbC1)
    ∧ isUnbalancedErr (postJournalEntryRoute dbC1 reqC1bal).1 = false :=
  ⟨(spec_C1 dbC1 reqC1unbal).1 (by with_unfolding_all decide),
   (spec_C1 dbC1 reqC1bal).2 (by with_unfolding_all decide)⟩

/-- C2 failing input: a balanced posting referencing missing account 999 is
rolled back (the store is returned unchanged: no entry row, no line rows, no
balance change), but the thrown generic Error is classified by the app.js
middleware as 500 SERVER_ERROR — not as an ACCOUNT_NOT_FOUND error of the
4xx taxonomy the spec prescribes. -/
theorem spec_C2_eval :
    postJournalEntryRoute dbC2 reqC2 =
      (.err { status := 500, code := "SERVER_ERROR"
              message := "An unexpected error occurred", details := none }, dbC2) := by
  with_unfolding_all decide

/-- C4 failing input: posting a line whose account has no account_balances
row does not fail loudly — the increment silently matches zero rows, the
transaction commits, the entry and lines persist, and the balances table
still has no row for account 2. -/
theorem spec_C4_eval :
    (postJournalEntryRoute dbC4 reqC4).1 = .created 1 100 100
    ∧ (postJournalEntryRoute dbC4 reqC4).2.entries = [⟨1, 1, 15, "INV-3", "", "posted"⟩]
    ∧ (postJournalEntryRoute dbC4 reqC4).2.lines =
        [⟨1, 1, 1, "", 100, 0⟩, ⟨2, 1, 2, "", 0, 100⟩]
    ∧ (postJournalEntryRoute dbC4 reqC4).2.balances = [⟨1, 1, 100⟩] := by
  refine ⟨?_, ?_, ?_, ?_⟩ <;> with_unfolding_all decide

theorem applyBalanceUpdates_ok (db : DB) (orgId : ℕ) :
    ∀ (ls : List PostLine) (bals newBals : List AccountBalance),
      applyBalanceUpdates db orgId ls bals = .ok newBals →
      newBals = bals.map (fun b =>
        if b.organizationId = orgId
        then { b with balance := b.balance + sumDeltas db ls b.accountId } else b) := by
  intro ls
  induction ls with
  | nil =>
    intro bals newBals h
    simp only [applyBalanceUpdates, Except.ok.injEq] at h
    subst h
    have hid : ∀ b : AccountBalance,
        (if b.organizationId = orgId
         then { b with balance := b.balance + sumDeltas db [] b.accountId } else b) = b := by
      intro b
      simp [sumDeltas]
    simp [hid]
  | cons l ls ih =>
    intro bals newBals h
    simp only [applyBalanceUpdates] at h
    cases hlk : lookupAccountWithType db l.accountId with
    | none => rw [hlk] at h; exact absurd h (by simp)
    | some p =>
      obtain ⟨a, t⟩ := p
      rw [hlk] at h
      rw [ih _ _ h, incrementBalance, List.map_map]
      congr 1
      funext b
      obtain ⟨ba, bo, bb⟩ := b
      simp only [Function.comp_apply]
      by_cases hacc : ba = l.accountId
      · subst hacc
        by_cases horg : bo = orgId
        · subst horg
          simp [sumDeltas, specLineDelta, hlk, balanceChangeFor, add_assoc]
        · simp [horg]
      · by_cases horg : bo = orgId
        · subst horg
          have hacc2 : ¬ l.accountId = ba := fun hh => hacc hh.symm
          simp [hacc, hacc2, sumDeltas]
        · simp [hacc, horg]

theorem applyBalanceUpdates_total (db : DB) (orgId : ℕ) :
    ∀ (ls : List PostLine) (bals : List AccountBalance),
      (∀ l ∈ ls, lookupAccountWithType db l.accountId ≠ none) →
      ∃ newBals, applyBalanceUpdates db orgId ls bals = .ok newBals := by
  intro ls
  induction ls with
  | nil => intro bals _; exact ⟨bals, rfl⟩
  | cons l ls ih =>
    intro bals hall
    have hl := hall l (List.mem_cons_self l ls)
    cases hlk : lookupAccountWithType db l.accountId with
    | none => exact absurd hlk hl
    | some p =>
      obtain ⟨a, t⟩ := p
      obtain ⟨newBals, hok⟩ :=
        ih (incrementBalance bals l.accountId orgId (balanceChangeFor t.normalBalance l))
          (fun l2 hl2 => hall l2 (List.mem_cons_of_mem l hl2))
      exact ⟨newBals, by simp only [applyBalanceUpdates]; rw [hlk]; exact hok⟩

/-- C3: after a successful posting, every stored balance row of the posting
organization changes by exactly the summed normal-balance-signed deltas of
the lines referencing its account (debit-normal: debit - credit, otherwise
credit - debit), and every row not referenced by any line — in particular
every row of another organization — is unchanged. -/
theorem spec_C3 (db : DB) (req : PostRequest)
    (h : isCreated (postJournalEntryRoute db req).1 = true) :
    (postJournalEntryRoute db req).2.balances = db.balances.map (specBalanceAfter db req)
    ∧ ∀ b : AccountBalance,
        (b.organizationId ≠ req.organizationId ∨ ∀ l ∈ req.lines, l.accountId ≠ b.accountId) →
        specBalanceAfter db req b = b := by
  constructor
  · by_cases hb : |totalDebitOf req - totalCreditOf req| > 1/1000
    · exfalso
      unfold postJournalEntryRoute postJournalEntry at h
      rw [if_pos hb] at h
      simp [isCreated] at h
    · cases happ : applyBalanceUpdates db req.organizationId req.lines db.balances with
      | error msg =>
        exfalso
        unfold postJournalEntryRoute postJournalEntry at h
        rw [if_neg hb, happ] at h
        simp [isCreated] at h
      | ok newBals =>
        unfold postJournalEntryRoute postJournalEntry
        rw [if_neg hb, happ]
        simpa [commitDB, specBalanceAfter] using
          applyBalanceUpdates_ok db req.organizationId req.lines db.balances newBals happ
  · intro b hb
    rcases hb with hb | hb
    · simp [specBalanceAfter, hb]
    · have hf : req.lines.filter (fun l => l.accountId = b.accountId) = [] := by
        apply List.filter_eq_nil_iff.mpr
        intro l hl
        simpa using hb l hl
      have hz : sumDeltas db req.lines b.accountId = 0 := by
        simp [sumDeltas, hf]
      obtain ⟨ba, bo, bbal⟩ := b
      simp [specBalanceAfter, hz]

/-- Witness for C3: posting debit Cash 100 / credit Sales 100 against seeded
balances 25 and 40 yields exactly the spec-described balance table. -/
theorem spec_C3_witness :
    (postJournalEntryRoute dbC3 reqC3).2.balances = dbC3.balances.map (specBalanceAfter dbC3 reqC3) :=
  (spec_C3 dbC3 reqC3 (by with_unfolding_all decide)).1

/-- C10 (implicit): the posting path never checks that a line's account
belongs to the posting organization.  A balanced posting whose lines all
resolve (the lookup has no organization filter) commits the entry with
status "posted" together with all its lines even when some line references
an existing account of a different organization; every balance row keyed by
another organization — in particular that account's own row — is left
unchanged, because the increment's where-clause on
(account_id, organization_id) matches zero rows, and no error is reported. -/
theorem spec_C10 (db : DB) (req : PostRequest) (l : PostLine) (a : Account)
    (hl : l ∈ req.lines) (ha : a ∈ db.accounts) (haid : a.id = l.accountId)
    (horg : a.organizationId ≠ req.organizationId)
    (hbal : |totalDebitOf req - totalCreditOf req| ≤ 1/1000)
    (hall : ∀ l2 ∈ req.lines, lookupAccountWithType db l2.accountId ≠ none) :
    isCreated (postJournalEntryRoute db req).1 = true
    ∧ (postJournalEntryRoute db req).2.entries = db.entries ++ [newEntryOf db req]
    ∧ (postJournalEntryRoute db req).2.lines = db.lines ++ newLinesOf db req
    ∧ ∀ b ∈ db.balances, b.organizationId ≠ req.organizationId →
        b ∈ (postJournalEntryRoute db req).2.balances := by
  have hnb : ¬ (|totalDebitOf req - totalCreditOf req| > 1/1000) := not_lt.mpr hbal
  obtain ⟨newBals, hok⟩ :=
    applyBalanceUpdates_total db req.organizationId req.lines db.balances hall
  have hroute : postJournalEntryRoute db req =
      (.created db.nextEntryId (totalDebitOf req) (totalCreditOf req),
        commitDB db req newBals) := by
    unfold postJournalEntryRoute postJournalEntry
    rw [if_neg hnb, hok]
  refine ⟨by rw [hroute]; rfl, by rw [hroute]; rfl, by rw [hroute]; rfl, ?_⟩
  intro b hbmem hbo
  rw [hroute]
  show b ∈ (commitDB db req newBals).balances
  have hmap := applyBalanceUpdates_ok db req.organizationId req.lines db.balances newBals hok
  have hfix : (if b.organizationId = req.organizationId
      then { b with balance := b.balance + sumDeltas db req.lines b.accountId } else b) = b :=
    if_neg hbo
  simp only [commitDB, hmap]
  exact hfix ▸ List.mem_map_of_mem _ hbmem

/-- Witness for C10: organization 1 posts a balanced entry crediting account
3 of organization 2 — the posting succeeds and the foreign balance row
(3, 2, 7) is untouched. -/
theorem spec_C10_witness :
    isCreated (postJournalEntryRoute dbC10 reqC10).1 = true
    ∧ (⟨3, 2, 7⟩ : AccountBalance) ∈ (postJournalEntryRoute dbC10 reqC10).2.balances := by
  have h := spec_C10 dbC10 reqC10 ⟨3, "", 0, 100⟩ ⟨3, 2, "1000", "Other Org Cash", 1, none, none, true, 0⟩
    (by with_unfolding_all decide) (by with_unfolding_all decide)
    (by with_unfolding_all decide) (by with_unfolding_all decide)
    (by with_unfolding_all decide) (by intro l2 hl2; fin_cases hl2 <;> with_unfolding_all decide)
  exact ⟨h.1, h.2.2.2 ⟨3, 2, 7⟩ (by with_unfolding_all decide) (by with_unfolding_all decide)⟩

/-- C6 failing input: page 1, no filters, two posted entries on days 1 and 2
debiting 100 and 50 on a debit-normal account.  The rows do come back in
chronological order (entry ids [1, 2]), but the handler accumulates the
running balance while walking the rows newest-to-oldest and only then
reverses, so the oldest returned row carries balance 150 (the whole page
total) and the newest carries 50 — the claim requires the oldest row to
carry exactly its own delta 100 and the newest 150. -/
theorem spec_C6_eval :
    ledgerEntryIds (getLedger dbC6 1 1 none none 1 50) = [1, 2]
    ∧ ledgerBalances (getLedger dbC6 1 1 none none 1 50) = [150, 50] := by
  refine ⟨?_, ?_⟩ <;> with_unfolding_all decide

/-- C5 failing input, both window forms, on a debit-normal account with four
posted entries (day i debits i, i = 1..4).  Resuming at page 2 with limit 2
returns entries [1, 2] with balances [6, 5]: the seed query reuses offset
(page-1)*limit, so it sums the returned page's own rows (1 + 2 = 3) instead
of the empty set of older excluded rows, and the reversed accumulation then
stacks the page on top — the true historical balances are [1, 3].  With a
startDate of day 3 the seed (1 + 2 = 3) is right, but the returned entries
[3, 4] carry balances [10, 7] instead of the true [6, 10]. -/
theorem spec_C5_eval :
    (ledgerEntryIds (getLedger dbC5 1 1 none none 2 2) = [1, 2]
      ∧ ledgerBalances (getLedger dbC5 1 1 none none 2 2) = [6, 5])
    ∧ (ledgerEntryIds (getLedger dbC5 1 1 (some 3) none 1 50) = [3, 4]
      ∧ ledgerBalances (getLedger dbC5 1 1 (some 3) none 1 50) = [10, 7]) := by
  refine ⟨⟨?_, ?_⟩, ⟨?_, ?_⟩⟩ <;> with_unfolding_all decide

theorem trialBalanceStep_eq (st : TBAcc) (j : Account × AccountType × ℚ) :
    trialBalanceStep st j =
      { rows := st.rows ++ [specTBRowOf j]
        totalDebits := st.totalDebits + specDebitColumn j.2.1.normalBalance j.2.2
        totalCredits := st.totalCredits + specCreditColumn j.2.1.normalBalance j.2.2 } := by
  by_cases hnb : j.2.1.normalBalance = "debit" <;> by_cases hb : j.2.2 ≥ 0 <;>
    simp [trialBalanceStep, specTBRowOf, specDebitColumn, specCreditColumn, hnb, hb]

theorem trialBalance_foldl (js : List (Account × AccountType × ℚ)) :
    ∀ st : TBAcc,
      js.foldl trialBalanceStep st =
        { rows := st.rows ++ js.map specTBRowOf
          totalDebits := st.totalDebits +
            (js.map (fun j => specDebitColumn j.2.1.normalBalance j.2.2)).sum
          totalCredits := st.totalCredits +
            (js.map (fun j => specCreditColumn j.2.1.normalBalance j.2.2)).sum } := by
  induction js with
  | nil => intro st; simp
  | cons j js ih =>
    intro st
    rw [List.foldl_cons, ih (trialBalanceStep st j), trialBalanceStep_eq]
    simp [add_assoc]

/-- C7: for every trial-balance call, each returned account row classifies
the stored balance (0 when no balance row exists) into the
debitBalance/creditBalance columns by normalBalance and sign exactly as the
claim states, the grand totals are the sums of those columns over all
accounts of the organization, and the returned difference is
|totalDebits - totalCredits|. -/
theorem spec_C7 (db : DB) (orgId : ℕ) :
    (trialBalance db orgId).rows = (trialBalanceJoined db orgId).map specTBRowOf
    ∧ (trialBalance db orgId).totalDebits =
        ((trialBalanceJoined db orgId).map
          (fun j => specDebitColumn j.2.1.normalBalance j.2.2)).sum
    ∧ (trialBalance db orgId).totalCredits =
        ((trialBalanceJoined db orgId).map
          (fun j => specCreditColumn j.2.1.normalBalance j.2.2)).sum
    ∧ (trialBalance db orgId).difference =
        |(trialBalance db orgId).totalDebits - (trialBalance db orgId).totalCredits| := by
  have h := trialBalance_foldl (trialBalanceJoined db orgId) ⟨[], 0, 0⟩
  refine ⟨?_, ?_, ?_, rfl⟩ <;> simp [trialBalance, h]

theorem bumpAssoc_lookup (k : ℕ) (v : ℚ) :
    ∀ (m : List (ℕ × ℚ)) (k2 : ℕ),
      (bumpAssoc m k v).lookup k2 =
        if k2 = k then some ((m.lookup k2).getD 0 + v) else m.lookup k2 := by
  intro m
  induction m with
  | nil =>
    intro k2
    by_cases h : k2 = k
    · subst h; simp [bumpAssoc, List.lookup]
    · have hb : (k2 == k) = false := beq_eq_false_iff_ne.mpr h
      simp [bumpAssoc, List.lookup, h, hb]
  | cons p rest ih =>
    intro k2
    obtain ⟨k3, x⟩ := p
    by_cases h3 : k3 = k
    · subst h3
      by_cases h : k2 = k3
      · subst h; simp [bumpAssoc, List.lookup]
      · have hb : (k2 == k3) = false := beq_eq_false_iff_ne.mpr h
        simp [bumpAssoc, List.lookup, h, hb]
    · by_cases h : k2 = k3
      · subst h
        simp [bumpAssoc, h3, List.lookup]
      · have hb : (k2 == k3) = false := beq_eq_false_iff_ne.mpr h
        simp [bumpAssoc, h3, List.lookup, h, hb, ih]

theorem foldDict_lookup (deltaFn : PeriodLine → ℚ) :
    ∀ (txns : List PeriodLine) (m : List (ℕ × ℚ)) (k : ℕ),
      ((txns.foldl (fun m t => bumpAssoc m t.accountId (deltaFn t)) m).lookup k).getD 0 =
        ((m.lookup k).getD 0) + ((txns.filter (fun t => t.accountId = k)).map deltaFn).sum := by
  intro txns
  induction txns with
  | nil => intro m k; simp
  | cons t ts ih =>
    intro m k
    rw [List.foldl_cons, ih]
    by_cases h : t.accountId = k
    · rw [bumpAssoc_lookup, if_pos h.symm]
      simp [h, add_assoc]
    · rw [bumpAssoc_lookup, if_neg (fun hh => h hh.symm)]
      simp [h]

theorem buildTotalsDict_lookup (txns : List PeriodLine) (deltaFn : PeriodLine → ℚ) (k : ℕ) :
    ((buildTotalsDict txns deltaFn).lookup k).getD 0 =
      ((txns.filter (fun t => t.accountId = k)).map deltaFn).sum := by
  simpa [buildTotalsDict] using foldDict_lookup deltaFn txns [] k

theorem foldl_add_eq_sum {α : Type} (f : α → ℚ) :
    ∀ (l : List α) (init : ℚ), l.foldl (fun s a => s + f a) init = init + (l.map f).sum := by
  intro l
  induction l with
  | nil => intro init; simp
  | cons a l ih => intro init; rw [List.foldl_cons, ih]; simp [add_assoc]

theorem periodAggregate_eq (db : DB) (orgId : ℕ) (sd ed : ℤ) (typeName : String)
    (deltaFn : PeriodLine → ℚ) :
    periodAggregate db orgId sd ed typeName deltaFn =
      ((accountsOfType db orgId typeName).map
         (fun a => (a, specPeriodDelta db orgId sd ed deltaFn a)),
       ((accountsOfType db orgId typeName).map
         (specPeriodDelta db orgId sd ed deltaFn)).sum) := by
  have hpoint : ∀ a ∈ accountsOfType db orgId typeName,
      ((buildTotalsDict (periodTxnsFor db orgId sd ed
          ((accountsOfType db orgId typeName).map (fun a => a.id))) deltaFn).lookup a.id).getD 0
        = specPeriodDelta db orgId sd ed deltaFn a := by
    intro a ha
    rw [buildTotalsDict_lookup]
    unfold specPeriodDelta
    congr 1
    unfold periodTxnsFor
    rw [List.filter_filter]
    congr 1
    apply List.filter_congr
    intro r _
    by_cases hr : r.accountId = a.id
    · have hmem : a.id ∈ (accountsOfType db orgId typeName).map (fun a => a.id) :=
        List.mem_map_of_mem _ ha
      simp [hr, hmem]
    · simp [hr]
  dsimp only [periodAggregate]
  have hmap : (accountsOfType db orgId typeName).map
      (fun a => (a, ((buildTotalsDict (periodTxnsFor db orgId sd ed
          ((accountsOfType db orgId typeName).map (fun a => a.id))) deltaFn).lookup a.id).getD 0))
      = (accountsOfType db orgId typeName).map
          (fun a => (a, specPeriodDelta db orgId sd ed deltaFn a)) := by
    apply List.map_congr_left
    intro a ha
    rw [hpoint a ha]
  rw [hmap, List.foldl_map, foldl_add_eq_sum (fun a => specPeriodDelta db orgId sd ed deltaFn a)]
  simp

/-- C8: with both dates supplied, the income statement reports, for every
Revenue account of the organization, the sum over its posted lines with
entry date in [startDate, endDate] inclusive of credit - debit, for every
Expense account the sum of debit - credit, nothing else contributes to the
totals (only accounts of those two types are aggregated), the block totals
are the sums over those accounts, and netIncome equals
totalRevenue - totalExpenses. -/
theorem spec_C8 (db : DB) (orgId : ℕ) (sd ed : ℤ) :
    ∃ r, incomeStatement db orgId (some sd) (some ed) = .ok r
      ∧ r.revenueAccounts = (accountsOfType db orgId "Revenue").map
          (fun a => (a, specPeriodDelta db orgId sd ed revenueDeltaFn a))
      ∧ r.totalRevenue = ((accountsOfType db orgId "Revenue").map
          (specPeriodDelta db orgId sd ed revenueDeltaFn)).sum
      ∧ r.expenseAccounts = (accountsOfType db orgId "Expense").map
          (fun a => (a, specPeriodDelta db orgId sd ed expenseDeltaFn a))
      ∧ r.totalExpenses = ((accountsOfType db orgId "Expense").map
          (specPeriodDelta db orgId sd ed expenseDeltaFn)).sum
      ∧ r.netIncome = r.totalRevenue - r.totalExpenses := by
  have h1 := periodAggregate_eq db orgId sd ed "Revenue" revenueDeltaFn
  have h2 := periodAggregate_eq db orgId sd ed "Expense" expenseDeltaFn
  refine ⟨_, rfl, ?_, ?_, ?_, ?_, ?_⟩ <;>
    simp [incomeStatement, h1, h2]

/-- C9 failing input: PUT /accounts/7/organization/1 with body
parentAccountId = 7 (a number).  The self-parent guard compares the numeric
body value with the string route param under strict equality — always false
across types — so the guard never fires; the subsequent parent lookup finds
the account itself in the same organization, and the update succeeds,
persisting the account as its own parent instead of failing with
INVALID_PARENT_ACCOUNT. -/
theorem spec_C9_eval :
    strictEq (JVal.num 7) (JVal.str "7") = false
    ∧ updateAccount dbC9 "7" 1 bodyC9 99 =
        (.updated (some ⟨7, 1, "1000", "Cash", 1, none, some 7, true, 99⟩),
         { dbC9 with accounts := [⟨7, 1, "1000", "Cash", 1, none, some 7, true, 99⟩] }) := by
  refine ⟨?_, ?_⟩ <;> with_unfolding_all decide
